import Mathlib

/-!
Shallow embedding of `src/log/log_signer.cc` from the certificate-transparency
log: `LogSigner` (produces signature records over canonically encoded inputs)
and `LogSigVerifier` (checks them). The Serializer/Deserializer collaborator
and the OpenSSL raw primitives live outside this file's source; they are
abstracted as function parameters (`SerializerOps`, `rawSign`, `rawVerify`),
except for the two structured-input Serializer overloads, which are modelled
from the spec (see their doc comments).

Conventions of the embedding:
* a C++ `std::string` of bytes is a `List Nat` (`Bytes`);
* an out-parameter `string *result` becomes explicit state passing: the
  function takes the string's prior contents and returns its final contents;
* `LOG(FATAL)`, `CHECK`, `CHECK_EQ` aborts are modelled as `Option.none`:
  a function that can abort returns `Option _` and `none` means the process
  died before producing a value.
-/

/-- Byte string (contents of a C++ `std::string`), one `Nat` per byte. -/
abbrev Bytes := List Nat

/-- Hash algorithm identifiers of `ct::DigitallySigned` (TLS registry). -/
inductive HashAlgorithm where
  | NONE
  | MD5
  | SHA1
  | SHA224
  | SHA256
  | SHA384
  | SHA512
  deriving DecidableEq

/-- Signature algorithm identifiers of `ct::DigitallySigned` (TLS registry). -/
inductive SigAlgorithm where
  | ANONYMOUS
  | RSA
  | DSA
  | ECDSA
  deriving DecidableEq

/-- `ct::DigitallySigned`: algorithm identifiers plus raw signature bytes. -/
structure DigitallySigned where
  hash_algorithm : HashAlgorithm
  sig_algorithm : SigAlgorithm
  signature : Bytes
  deriving DecidableEq

/-- `ct::LogEntryType`. -/
inductive LogEntryType where
  | X509_ENTRY
  | PRECERT_ENTRY
  | UNKNOWN_ENTRY_TYPE
  deriving DecidableEq

/-- `ct::LogEntry`: the entry type together with the leaf payload bytes. -/
structure LogEntry where
  type : LogEntryType
  leaf_certificate : Bytes
  deriving DecidableEq

/-- `ct::SignedCertificateTimestamp`, restricted to the fields `log_signer.cc`
touches. Optional protobuf fields are `Option`: `none` means never set. -/
structure SignedCertificateTimestamp where
  timestamp : Option Nat
  signature : DigitallySigned
  deriving DecidableEq

/-- protobuf `has_timestamp()` accessor. -/
def SignedCertificateTimestamp.has_timestamp (s : SignedCertificateTimestamp) : Bool :=
  s.timestamp.isSome

/-- protobuf `timestamp()` accessor: an unset optional scalar reads as its
default value `0`. -/
def SignedCertificateTimestamp.timestampVal (s : SignedCertificateTimestamp) : Nat :=
  s.timestamp.getD 0

/-- `ct::SignedTreeHead`, restricted to the fields `log_signer.cc` touches. -/
structure SignedTreeHead where
  timestamp : Option Nat
  tree_size : Option Nat
  root_hash : Option Bytes
  signature : DigitallySigned
  deriving DecidableEq

/-- protobuf `timestamp()` accessor (default `0` when unset). -/
def SignedTreeHead.timestampVal (s : SignedTreeHead) : Nat :=
  s.timestamp.getD 0

/-- protobuf `tree_size()` accessor (default `0` when unset). -/
def SignedTreeHead.treeSizeVal (s : SignedTreeHead) : Nat :=
  s.tree_size.getD 0

/-- protobuf `root_hash()` accessor (default empty string when unset). -/
def SignedTreeHead.rootHashVal (s : SignedTreeHead) : Bytes :=
  s.root_hash.getD []

/-- `Serializer::SerializeResult`, the codes `log_signer.cc` distinguishes:
`OK` plus the four input-canonicalization errors its switch maps. -/
inductive SerializeResult where
  | OK
  | INVALID_ENTRY_TYPE
  | EMPTY_CERTIFICATE
  | CERTIFICATE_TOO_LONG
  | INVALID_HASH_LENGTH
  deriving DecidableEq

/-- `Deserializer::DeserializeResult`, the codes `log_signer.cc`
distinguishes: `OK` plus the four signature-decoding errors its switch maps. -/
inductive DeserializeResult where
  | OK
  | INPUT_TOO_SHORT
  | INVALID_HASH_ALGORITHM
  | INVALID_SIGNATURE_ALGORITHM
  | INPUT_TOO_LONG
  deriving DecidableEq

/-- The Signature Input Encoder collaborator (`Serializer`/`Deserializer`,
whose implementation is outside `log_signer.cc`), abstracted as a record of
functions. A C++ `(code, out-parameter)` pair becomes a returned pair: the
first component is the result code, the second the bytes written. -/
structure SerializerOps where
  serializeSCTSignatureInput : Nat → LogEntryType → Bytes → SerializeResult × Bytes
  serializeSTHForSigning : Nat → Nat → Bytes → SerializeResult × Bytes
  serializeDigitallySigned : DigitallySigned → SerializeResult × Bytes
  deserializeDigitallySigned : Bytes → DeserializeResult × DigitallySigned

/-- Modelled from the spec: the `Serializer::SerializeSCTSignatureInput`
overload taking `(timestamp, LogEntry)` is repository code not present under
`src/`; per the spec the encoder canonicalizes (timestamp, entry-type,
leaf-payload), so the overload reads the entry's type and payload and
delegates to the scalar encoder. -/
def SerializerOps.serializeSCTSignatureInputEntry (ops : SerializerOps)
    (timestamp : Nat) (entry : LogEntry) : SerializeResult × Bytes :=
  ops.serializeSCTSignatureInput timestamp entry.type entry.leaf_certificate

/-- Modelled from the spec: the `Serializer::SerializeSTHForSigning` overload
taking a `SignedTreeHead` is repository code not present under `src/`; per the
spec the encoder canonicalizes (timestamp, tree-size, root-hash), so the
overload reads those fields through the protobuf accessors (unset fields read
as defaults) and delegates to the scalar encoder. -/
def SerializerOps.serializeSTHForSigningSTH (ops : SerializerOps)
    (sth : SignedTreeHead) : SerializeResult × Bytes :=
  ops.serializeSTHForSigning sth.timestampVal sth.treeSizeVal sth.rootHashVal

/-- `EVP_PKEY` key families distinguished by the constructors'
`switch (pkey_->type)`. -/
inductive KeyType where
  | EC
  | RSA
  | DSA
  | DH
  deriving DecidableEq

/-- `LogSigner::SignResult` (values named in `log_signer.cc`). -/
inductive SignResult where
  | OK
  | INVALID_ENTRY_TYPE
  | EMPTY_CERTIFICATE
  | CERTIFICATE_TOO_LONG
  | INVALID_HASH_LENGTH
  deriving DecidableEq

/-- `LogSigVerifier::VerifyResult` (values named in `log_signer.cc`). -/
inductive VerifyResult where
  | OK
  | SIGNATURE_TOO_SHORT
  | SIGNATURE_TOO_LONG
  | INVALID_HASH_ALGORITHM
  | INVALID_SIGNATURE_ALGORITHM
  | INVALID_ENTRY_TYPE
  | EMPTY_CERTIFICATE
  | CERTIFICATE_TOO_LONG
  | INVALID_HASH_LENGTH
  | HASH_ALGORITHM_MISMATCH
  | SIGNATURE_ALGORITHM_MISMATCH
  | INVALID_SIGNATURE
  deriving DecidableEq

/-- State of a constructed `LogSigner`: the algorithm pair fixed by the
constructor and the raw OpenSSL signing primitive bound to the private key
(`LogSigner::RawSign`), abstracted as a function on bytes. -/
structure LogSigner where
  hash_algo : HashAlgorithm
  sig_algo : SigAlgorithm
  rawSign : Bytes → Bytes

/-- `LogSigner::LogSigner`: an elliptic-curve key fixes the algorithm pair to
(SHA256, ECDSA); any other key family hits `LOG(FATAL)`, modelled as `none`. -/
def mkLogSigner (keyType : KeyType) (rawSign : Bytes → Bytes) : Option LogSigner :=
  match keyType with
  | KeyType.EC =>
      some { hash_algo := HashAlgorithm.SHA256, sig_algo := SigAlgorithm.ECDSA,
             rawSign := rawSign }
  | _ => none

/-- `LogSigner::GetSerializeError`: maps the Serializer's error code into the
signer's taxonomy; the switch's `default: LOG(FATAL)` branch is `none`. -/
def LogSigner.GetSerializeError : SerializeResult → Option SignResult
  | SerializeResult.INVALID_ENTRY_TYPE => some SignResult.INVALID_ENTRY_TYPE
  | SerializeResult.EMPTY_CERTIFICATE => some SignResult.EMPTY_CERTIFICATE
  | SerializeResult.CERTIFICATE_TOO_LONG => some SignResult.CERTIFICATE_TOO_LONG
  | SerializeResult.INVALID_HASH_LENGTH => some SignResult.INVALID_HASH_LENGTH
  | SerializeResult.OK => none

/-- `LogSigner::Sign`: stamps the signer's algorithm pair on the record and
fills in the raw signature over `data`. -/
def LogSigner.Sign (s : LogSigner) (data : Bytes) : DigitallySigned :=
  { hash_algorithm := s.hash_algo, sig_algorithm := s.sig_algo,
    signature := s.rawSign data }

/-- `LogSigner::SignCertificateTimestamp(uint64_t, LogEntryType, string, string*)`:
scalar-input SCT signing. `result` is the prior content of the out-parameter;
the second component of a returned pair is its final content. -/
def LogSigner.SignCertificateTimestamp (s : LogSigner) (ops : SerializerOps)
    (timestamp : Nat) (type : LogEntryType) (leaf_certificate : Bytes)
    (result : Bytes) : Option (SignResult × Bytes) :=
  let r := ops.serializeSCTSignatureInput timestamp type leaf_certificate
  if r.1 ≠ SerializeResult.OK then
    (LogSigner.GetSerializeError r.1).map (fun e => (e, result))
  else
    let signature := s.Sign r.2
    let r2 := ops.serializeDigitallySigned signature
    if r2.1 = SerializeResult.OK then some (SignResult.OK, r2.2)
    else none

/-- `LogSigner::SignCertificateTimestamp(const LogEntry&, SignedCertificateTimestamp*)`:
structured SCT signing; `CHECK(sct->has_timestamp())` aborts (`none`) when the
timestamp was never set. -/
def LogSigner.SignCertificateTimestampSCT (s : LogSigner) (ops : SerializerOps)
    (entry : LogEntry) (sct : SignedCertificateTimestamp) :
    Option (SignResult × SignedCertificateTimestamp) :=
  if sct.has_timestamp = false then none
  else
    let r := ops.serializeSCTSignatureInputEntry sct.timestampVal entry
    if r.1 ≠ SerializeResult.OK then
      (LogSigner.GetSerializeError r.1).map (fun e => (e, sct))
    else
      some (SignResult.OK, { sct with signature := s.Sign r.2 })

/-- `LogSigner::SignTreeHead(uint64_t, uint64_t, string, string*)`:
scalar-input STH signing, with the same out-parameter convention as
`SignCertificateTimestamp`. -/
def LogSigner.SignTreeHead (s : LogSigner) (ops : SerializerOps)
    (timestamp tree_size : Nat) (root_hash : Bytes)
    (result : Bytes) : Option (SignResult × Bytes) :=
  let r := ops.serializeSTHForSigning timestamp tree_size root_hash
  if r.1 ≠ SerializeResult.OK then
    (LogSigner.GetSerializeError r.1).map (fun e => (e, result))
  else
    let signature := s.Sign r.2
    let r2 := ops.serializeDigitallySigned signature
    if r2.1 = SerializeResult.OK then some (SignResult.OK, r2.2)
    else none

/-- `LogSigner::SignTreeHead(SignedTreeHead*)`: structured STH signing. Note
the source has no `CHECK` on the timestamp here, unlike the SCT overload. -/
def LogSigner.SignTreeHeadSTH (s : LogSigner) (ops : SerializerOps)
    (sth : SignedTreeHead) : Option (SignResult × SignedTreeHead) :=
  let r := ops.serializeSTHForSigningSTH sth
  if r.1 ≠ SerializeResult.OK then
    (LogSigner.GetSerializeError r.1).map (fun e => (e, sth))
  else
    some (SignResult.OK, { sth with signature := s.Sign r.2 })

/-- State of a constructed `LogSigVerifier`: the algorithm pair fixed by the
constructor and the raw OpenSSL verification primitive bound to the public key
(`LogSigVerifier::RawVerify`), abstracted as a boolean function. -/
structure LogSigVerifier where
  hash_algo : HashAlgorithm
  sig_algo : SigAlgorithm
  rawVerify : Bytes → Bytes → Bool

/-- `LogSigVerifier::LogSigVerifier`: identical algorithm-fixing policy as the
signer; non-EC key families hit `LOG(FATAL)`, modelled as `none`. -/
def mkLogSigVerifier (keyType : KeyType) (rawVerify : Bytes → Bytes → Bool) :
    Option LogSigVerifier :=
  match keyType with
  | KeyType.EC =>
      some { hash_algo := HashAlgorithm.SHA256, sig_algo := SigAlgorithm.ECDSA,
             rawVerify := rawVerify }
  | _ => none

/-- `LogSigVerifier::GetSerializeError`: same mapping as the signer's, into
`VerifyResult`; the `default: LOG(FATAL)` branch is `none`. -/
def LogSigVerifier.GetSerializeError : SerializeResult → Option VerifyResult
  | SerializeResult.INVALID_ENTRY_TYPE => some VerifyResult.INVALID_ENTRY_TYPE
  | SerializeResult.EMPTY_CERTIFICATE => some VerifyResult.EMPTY_CERTIFICATE
  | SerializeResult.CERTIFICATE_TOO_LONG => some VerifyResult.CERTIFICATE_TOO_LONG
  | SerializeResult.INVALID_HASH_LENGTH => some VerifyResult.INVALID_HASH_LENGTH
  | SerializeResult.OK => none

/-- `LogSigVerifier::GetDeserializeSignatureError`: maps the Deserializer's
error code into the verifier's taxonomy; `default: LOG(FATAL)` is `none`. -/
def LogSigVerifier.GetDeserializeSignatureError : DeserializeResult → Option VerifyResult
  | DeserializeResult.INPUT_TOO_SHORT => some VerifyResult.SIGNATURE_TOO_SHORT
  | DeserializeResult.INVALID_HASH_ALGORITHM => some VerifyResult.INVALID_HASH_ALGORITHM
  | DeserializeResult.INVALID_SIGNATURE_ALGORITHM =>
      some VerifyResult.INVALID_SIGNATURE_ALGORITHM
  | DeserializeResult.INPUT_TOO_LONG => some VerifyResult.SIGNATURE_TOO_LONG
  | DeserializeResult.OK => none

/-- `LogSigVerifier::Verify`: strict algorithm check followed by the raw
cryptographic verification over the canonical `input`. -/
def LogSigVerifier.Verify (v : LogSigVerifier) (input : Bytes)
    (signature : DigitallySigned) : VerifyResult :=
  if signature.hash_algorithm ≠ v.hash_algo then VerifyResult.HASH_ALGORITHM_MISMATCH
  else if signature.sig_algorithm ≠ v.sig_algo then
    VerifyResult.SIGNATURE_ALGORITHM_MISMATCH
  else if v.rawVerify input signature.signature = false then
    VerifyResult.INVALID_SIGNATURE
  else VerifyResult.OK

/-- `LogSigVerifier::VerifySCTSignature(uint64_t, LogEntryType, string, string)`:
scalar-input SCT verification: decode the signature blob, canonicalize the
fields, then `Verify`. -/
def LogSigVerifier.VerifySCTSignature (v : LogSigVerifier) (ops : SerializerOps)
    (timestamp : Nat) (type : LogEntryType) (leaf_cert : Bytes)
    (serialized_sig : Bytes) : Option VerifyResult :=
  let d := ops.deserializeDigitallySigned serialized_sig
  if d.1 ≠ DeserializeResult.OK then
    LogSigVerifier.GetDeserializeSignatureError d.1
  else
    let r := ops.serializeSCTSignatureInput timestamp type leaf_cert
    if r.1 ≠ SerializeResult.OK then LogSigVerifier.GetSerializeError r.1
    else some (v.Verify r.2 d.2)

/-- `LogSigVerifier::VerifySCTSignature(const LogEntry&, const SignedCertificateTimestamp&)`:
structured SCT verification; the record comes from the proof object and the
timestamp is read through the protobuf accessor. -/
def LogSigVerifier.VerifySCTSignatureEntry (v : LogSigVerifier) (ops : SerializerOps)
    (entry : LogEntry) (sct : SignedCertificateTimestamp) : Option VerifyResult :=
  let r := ops.serializeSCTSignatureInputEntry sct.timestampVal entry
  if r.1 ≠ SerializeResult.OK then LogSigVerifier.GetSerializeError r.1
  else some (v.Verify r.2 sct.signature)

/-- `LogSigVerifier::VerifySTHSignature(uint64_t, uint64_t, string, string)`:
scalar-input STH verification. -/
def LogSigVerifier.VerifySTHSignature (v : LogSigVerifier) (ops : SerializerOps)
    (timestamp tree_size : Nat) (root_hash : Bytes)
    (serialized_sig : Bytes) : Option VerifyResult :=
  let d := ops.deserializeDigitallySigned serialized_sig
  if d.1 ≠ DeserializeResult.OK then
    LogSigVerifier.GetDeserializeSignatureError d.1
  else
    let r := ops.serializeSTHForSigning timestamp tree_size root_hash
    if r.1 ≠ SerializeResult.OK then LogSigVerifier.GetSerializeError r.1
    else some (v.Verify r.2 d.2)

/-- `LogSigVerifier::VerifySTHSignature(const SignedTreeHead&)`: structured
STH verification. -/
def LogSigVerifier.VerifySTHSignatureSTH (v : LogSigVerifier) (ops : SerializerOps)
    (sth : SignedTreeHead) : Option VerifyResult :=
  let r := ops.serializeSTHForSigningSTH sth
  if r.1 ≠ SerializeResult.OK then LogSigVerifier.GetSerializeError r.1
  else some (v.Verify r.2 sth.signature)

/-! ### Concrete instances used to witness the theorems below -/

/-- Concrete signer state as built from an EC key; the raw signing primitive
is instantiated as the identity on bytes. -/
def signerEC : LogSigner :=
  { hash_algo := HashAlgorithm.SHA256, sig_algo := SigAlgorithm.ECDSA,
    rawSign := id }

/-- Concrete verifier state as built from an EC key; the raw verification
primitive accepts every (data, signature) pair. -/
def verifierAcceptAll : LogSigVerifier :=
  { hash_algo := HashAlgorithm.SHA256, sig_algo := SigAlgorithm.ECDSA,
    rawVerify := fun _ _ => true }

/-- Concrete signature record matching the EC algorithm pair. -/
def sigRecEC : DigitallySigned :=
  { hash_algorithm := HashAlgorithm.SHA256, sig_algorithm := SigAlgorithm.ECDSA,
    signature := [1] }

/-- Numeric code of a hash algorithm (for a concrete invertible wire format). -/
def hashAlgoCode : HashAlgorithm → Nat
  | HashAlgorithm.NONE => 0
  | HashAlgorithm.MD5 => 1
  | HashAlgorithm.SHA1 => 2
  | HashAlgorithm.SHA224 => 3
  | HashAlgorithm.SHA256 => 4
  | HashAlgorithm.SHA384 => 5
  | HashAlgorithm.SHA512 => 6

/-- Inverse of `hashAlgoCode` on its range. -/
def hashAlgoOfCode : Nat → HashAlgorithm
  | 0 => HashAlgorithm.NONE
  | 1 => HashAlgorithm.MD5
  | 2 => HashAlgorithm.SHA1
  | 3 => HashAlgorithm.SHA224
  | 4 => HashAlgorithm.SHA256
  | 5 => HashAlgorithm.SHA384
  | _ => HashAlgorithm.SHA512

/-- Numeric code of a signature algorithm. -/
def sigAlgoCode : SigAlgorithm → Nat
  | SigAlgorithm.ANONYMOUS => 0
  | SigAlgorithm.RSA => 1
  | SigAlgorithm.DSA => 2
  | SigAlgorithm.ECDSA => 3

/-- Inverse of `sigAlgoCode` on its range. -/
def sigAlgoOfCode : Nat → SigAlgorithm
  | 0 => SigAlgorithm.ANONYMOUS
  | 1 => SigAlgorithm.RSA
  | 2 => SigAlgorithm.DSA
  | _ => SigAlgorithm.ECDSA

/-- Concrete wire encoding of a `DigitallySigned` record. -/
def encodeDS (ds : DigitallySigned) : Bytes :=
  hashAlgoCode ds.hash_algorithm :: sigAlgoCode ds.sig_algorithm :: ds.signature

/-- Concrete wire decoding, inverse of `encodeDS` on its range. -/
def decodeDS (b : Bytes) : DigitallySigned :=
  { hash_algorithm := hashAlgoOfCode (b.headD 0),
    sig_algorithm := sigAlgoOfCode (b.tail.headD 0),
    signature := b.tail.tail }

theorem decodeDS_encodeDS (ds : DigitallySigned) : decodeDS (encodeDS ds) = ds := by
  cases ds with
  | mk h s sig => cases h <;> cases s <;> rfl

/-- Concrete serializer collaborator on which every encoder call succeeds and
the signature-record wire format round-trips. -/
def opsRT : SerializerOps :=
  { serializeSCTSignatureInput := fun t _ p => (SerializeResult.OK, t :: p),
    serializeSTHForSigning := fun t n h => (SerializeResult.OK, t :: n :: h),
    serializeDigitallySigned := fun ds => (SerializeResult.OK, encodeDS ds),
    deserializeDigitallySigned := fun b => (DeserializeResult.OK, decodeDS b) }

/-- Concrete serializer collaborator on which every encoder call fails and
signature decoding fails. -/
def opsFail : SerializerOps :=
  { serializeSCTSignatureInput := fun _ _ _ => (SerializeResult.EMPTY_CERTIFICATE, []),
    serializeSTHForSigning := fun _ _ _ => (SerializeResult.INVALID_HASH_LENGTH, []),
    serializeDigitallySigned := fun _ => (SerializeResult.OK, []),
    deserializeDigitallySigned := fun _ =>
      (DeserializeResult.INPUT_TOO_SHORT,
       { hash_algorithm := HashAlgorithm.NONE, sig_algorithm := SigAlgorithm.ANONYMOUS,
         signature := [] }) }

/-! ### Claim theorems -/

/-- C1: for every verification call in which the signature record was obtained
(decoded from the blob or taken from the proof object) and canonicalization
succeeded, and both algorithm fields of the record equal the verifier's fixed
algorithm pair, the call returns OK exactly when the raw verification
primitive validates the record's raw signature bytes over the canonical
bytes, and returns INVALID_SIGNATURE otherwise; each of the four verification
entry points reduces to `Verify` on the canonical bytes and the record. -/
theorem verify_ok_iff_raw_primitive (v : LogSigVerifier) (ops : SerializerOps)
    (input : Bytes) (sig : DigitallySigned)
    (hh : sig.hash_algorithm = v.hash_algo) (hsg : sig.sig_algorithm = v.sig_algo) :
    (v.Verify input sig = VerifyResult.OK ↔ v.rawVerify input sig.signature = true) ∧
    (v.Verify input sig = VerifyResult.INVALID_SIGNATURE ↔
      v.rawVerify input sig.signature = false) ∧
    (∀ t ty p blob, ops.deserializeDigitallySigned blob = (DeserializeResult.OK, sig) →
      ops.serializeSCTSignatureInput t ty p = (SerializeResult.OK, input) →
      v.VerifySCTSignature ops t ty p blob = some (v.Verify input sig)) ∧
    (∀ ts sz rh blob, ops.deserializeDigitallySigned blob = (DeserializeResult.OK, sig) →
      ops.serializeSTHForSigning ts sz rh = (SerializeResult.OK, input) →
      v.VerifySTHSignature ops ts sz rh blob = some (v.Verify input sig)) ∧
    (∀ entry sct, SignedCertificateTimestamp.signature sct = sig →
      ops.serializeSCTSignatureInputEntry sct.timestampVal entry =
        (SerializeResult.OK, input) →
      v.VerifySCTSignatureEntry ops entry sct = some (v.Verify input sig)) ∧
    (∀ sth, SignedTreeHead.signature sth = sig →
      ops.serializeSTHForSigningSTH sth = (SerializeResult.OK, input) →
      v.VerifySTHSignatureSTH ops sth = some (v.Verify input sig)) := by
  refine ⟨?_, ?_, ?_, ?_, ?_, ?_⟩
  · unfold LogSigVerifier.Verify
    simp only [hh, hsg, ne_eq, not_true_eq_false, if_false]
    cases hrv : v.rawVerify input sig.signature <;> simp
  · unfold LogSigVerifier.Verify
    simp only [hh, hsg, ne_eq, not_true_eq_false, if_false]
    cases hrv : v.rawVerify input sig.signature <;> simp
  · intro t ty p blob hdes henc
    unfold LogSigVerifier.VerifySCTSignature
    simp [hdes, henc]
  · intro ts sz rh blob hdes henc
    unfold LogSigVerifier.VerifySTHSignature
    simp [hdes, henc]
  · intro entry sct hsig henc
    unfold LogSigVerifier.VerifySCTSignatureEntry
    simp [henc, hsig]
  · intro sth hsig henc
    unfold LogSigVerifier.VerifySTHSignatureSTH
    simp [henc, hsig]

theorem verify_ok_iff_raw_primitive_witness :
    verifierAcceptAll.Verify [2] sigRecEC = VerifyResult.OK :=
  ((verify_ok_iff_raw_primitive verifierAcceptAll opsRT [2] sigRecEC rfl rfl).1).mpr rfl

/-- C4: for every verification call that reaches the algorithm check, a record
hash algorithm differing from the verifier's yields HASH_ALGORITHM_MISMATCH;
a matching hash algorithm with a differing signature algorithm yields
SIGNATURE_ALGORITHM_MISMATCH; the two results are distinct; and in either
mismatch case the result does not depend on the raw verification primitive
(it is never invoked). -/
theorem verify_algorithm_mismatch_checks (v : LogSigVerifier) (input : Bytes)
    (sig : DigitallySigned) (rv : Bytes → Bytes → Bool) :
    (sig.hash_algorithm ≠ v.hash_algo →
      v.Verify input sig = VerifyResult.HASH_ALGORITHM_MISMATCH) ∧
    (sig.hash_algorithm = v.hash_algo → sig.sig_algorithm ≠ v.sig_algo →
      v.Verify input sig = VerifyResult.SIGNATURE_ALGORITHM_MISMATCH) ∧
    VerifyResult.HASH_ALGORITHM_MISMATCH ≠ VerifyResult.SIGNATURE_ALGORITHM_MISMATCH ∧
    ((sig.hash_algorithm ≠ v.hash_algo ∨ sig.sig_algorithm ≠ v.sig_algo) →
      LogSigVerifier.Verify { v with rawVerify := rv } input sig =
        v.Verify input sig) := by
  refine ⟨?_, ?_, by decide, ?_⟩
  · intro h
    unfold LogSigVerifier.Verify
    simp [h]
  · intro hh hs
    unfold LogSigVerifier.Verify
    simp [hh, hs]
  · intro h
    unfold LogSigVerifier.Verify
    rcases h with h | h
    · simp [h]
    · by_cases hh : sig.hash_algorithm = v.hash_algo <;> simp [hh, h]

theorem verify_algorithm_mismatch_checks_witness :
    verifierAcceptAll.Verify []
        { hash_algorithm := HashAlgorithm.SHA1, sig_algorithm := SigAlgorithm.ECDSA,
          signature := [] } = VerifyResult.HASH_ALGORITHM_MISMATCH ∧
    verifierAcceptAll.Verify []
        { hash_algorithm := HashAlgorithm.SHA256, sig_algorithm := SigAlgorithm.RSA,
          signature := [] } = VerifyResult.SIGNATURE_ALGORITHM_MISMATCH :=
  ⟨(verify_algorithm_mismatch_checks verifierAcceptAll []
      { hash_algorithm := HashAlgorithm.SHA1, sig_algorithm := SigAlgorithm.ECDSA,
        signature := [] } (fun _ _ => false)).1 (by decide),
   (verify_algorithm_mismatch_checks verifierAcceptAll []
      { hash_algorithm := HashAlgorithm.SHA256, sig_algorithm := SigAlgorithm.RSA,
        signature := [] } (fun _ _ => false)).2.1 (by decide) (by decide)⟩

/-- C10: when both algorithm fields of the record differ from the verifier's
configured pair, verification returns HASH_ALGORITHM_MISMATCH — the hash check
takes precedence — and never SIGNATURE_ALGORITHM_MISMATCH. -/
theorem verify_both_mismatch_hash_precedence (v : LogSigVerifier) (input : Bytes)
    (sig : DigitallySigned)
    (hh : sig.hash_algorithm ≠ v.hash_algo) (hs : sig.sig_algorithm ≠ v.sig_algo) :
    v.Verify input sig = VerifyResult.HASH_ALGORITHM_MISMATCH ∧
    v.Verify input sig ≠ VerifyResult.SIGNATURE_ALGORITHM_MISMATCH := by
  refine ⟨?_, ?_⟩ <;> simp [LogSigVerifier.Verify, hh]

theorem verify_both_mismatch_hash_precedence_witness :
    verifierAcceptAll.Verify [5]
        { hash_algorithm := HashAlgorithm.MD5, sig_algorithm := SigAlgorithm.DSA,
          signature := [9] } = VerifyResult.HASH_ALGORITHM_MISMATCH ∧
    verifierAcceptAll.Verify [5]
        { hash_algorithm := HashAlgorithm.MD5, sig_algorithm := SigAlgorithm.DSA,
          signature := [9] } ≠ VerifyResult.SIGNATURE_ALGORITHM_MISMATCH :=
  verify_both_mismatch_hash_precedence verifierAcceptAll [5]
    { hash_algorithm := HashAlgorithm.MD5, sig_algorithm := SigAlgorithm.DSA,
      signature := [9] } (by decide) (by decide)

/-- Concrete verifier whose raw primitive rejects everything (used to show
results that must not depend on the primitive). -/
def verifierRejectAll : LogSigVerifier :=
  { hash_algo := HashAlgorithm.SHA256, sig_algo := SigAlgorithm.ECDSA,
    rawVerify := fun _ _ => false }

/-- C3: for every scalar-input verification call in which decoding of the
serialized signature blob fails, the call returns exactly the one-to-one image
of the decoder's error code in {SIGNATURE_TOO_SHORT, INVALID_HASH_ALGORITHM,
INVALID_SIGNATURE_ALGORITHM, SIGNATURE_TOO_LONG}; the result is independent of
the verifier's raw primitive and of the canonicalization functions (neither is
invoked); and the error mapping is injective. -/
theorem verify_decode_failure_short_circuit
    (v v' : LogSigVerifier) (ops ops' : SerializerOps)
    (blob : Bytes) (code : DeserializeResult) (sigr : DigitallySigned)
    (hdes : ops.deserializeDigitallySigned blob = (code, sigr))
    (hne : code ≠ DeserializeResult.OK)
    (hsame : ops'.deserializeDigitallySigned = ops.deserializeDigitallySigned)
    (t : Nat) (ty : LogEntryType) (p : Bytes) (ts sz : Nat) (rh : Bytes) :
    v.VerifySCTSignature ops t ty p blob =
      LogSigVerifier.GetDeserializeSignatureError code ∧
    v.VerifySTHSignature ops ts sz rh blob =
      LogSigVerifier.GetDeserializeSignatureError code ∧
    v'.VerifySCTSignature ops' t ty p blob = v.VerifySCTSignature ops t ty p blob ∧
    v'.VerifySTHSignature ops' ts sz rh blob = v.VerifySTHSignature ops ts sz rh blob ∧
    (LogSigVerifier.GetDeserializeSignatureError code =
        some VerifyResult.SIGNATURE_TOO_SHORT ∨
     LogSigVerifier.GetDeserializeSignatureError code =
        some VerifyResult.INVALID_HASH_ALGORITHM ∨
     LogSigVerifier.GetDeserializeSignatureError code =
        some VerifyResult.INVALID_SIGNATURE_ALGORITHM ∨
     LogSigVerifier.GetDeserializeSignatureError code =
        some VerifyResult.SIGNATURE_TOO_LONG) ∧
    (∀ c₁ c₂ : DeserializeResult, LogSigVerifier.GetDeserializeSignatureError c₁ =
        LogSigVerifier.GetDeserializeSignatureError c₂ → c₁ = c₂) := by
  refine ⟨?_, ?_, ?_, ?_, ?_, ?_⟩
  · unfold LogSigVerifier.VerifySCTSignature
    simp [hdes, hne]
  · unfold LogSigVerifier.VerifySTHSignature
    simp [hdes, hne]
  · unfold LogSigVerifier.VerifySCTSignature
    rw [hsame]
    simp [hdes, hne]
  · unfold LogSigVerifier.VerifySTHSignature
    rw [hsame]
    simp [hdes, hne]
  · cases code <;> first | exact absurd rfl hne | decide
  · intro c₁ c₂ h
    revert h
    cases c₁ <;> cases c₂ <;> decide

theorem verify_decode_failure_short_circuit_witness :
    verifierAcceptAll.VerifySCTSignature opsFail 1 LogEntryType.X509_ENTRY [3] [0] =
      some VerifyResult.SIGNATURE_TOO_SHORT :=
  (verify_decode_failure_short_circuit verifierAcceptAll verifierRejectAll
      opsFail opsFail [0] DeserializeResult.INPUT_TOO_SHORT
      { hash_algorithm := HashAlgorithm.NONE, sig_algorithm := SigAlgorithm.ANONYMOUS,
        signature := [] }
      rfl (by decide) rfl 1 LogEntryType.X509_ENTRY [3] 2 4 [6]).1

/-- C5: for every signing call (any of the four signer operations) in which
the Signature Input Encoder fails, the call returns exactly the one-to-one
image of the encoder's error code in {INVALID_ENTRY_TYPE, EMPTY_CERTIFICATE,
CERTIFICATE_TOO_LONG, INVALID_HASH_LENGTH}; the mapping is injective and its
image on failing codes lies in that set; and the result does not depend on the
raw signing primitive (it is never invoked). -/
theorem sign_encoder_failure_mapping (s : LogSigner) (raws' : Bytes → Bytes)
    (ops : SerializerOps)
    (t : Nat) (ty : LogEntryType) (p : Bytes) (r0 : Bytes)
    (ts sz : Nat) (rh : Bytes) (r1 : Bytes)
    (entry : LogEntry) (sct : SignedCertificateTimestamp) (sth : SignedTreeHead)
    (c1 c2 c3 c4 : SerializeResult)
    (hts : sct.has_timestamp = true)
    (h1 : (ops.serializeSCTSignatureInput t ty p).1 = c1)
    (hne1 : c1 ≠ SerializeResult.OK)
    (h2 : (ops.serializeSTHForSigning ts sz rh).1 = c2)
    (hne2 : c2 ≠ SerializeResult.OK)
    (h3 : (ops.serializeSCTSignatureInputEntry sct.timestampVal entry).1 = c3)
    (hne3 : c3 ≠ SerializeResult.OK)
    (h4 : (ops.serializeSTHForSigningSTH sth).1 = c4)
    (hne4 : c4 ≠ SerializeResult.OK) :
    s.SignCertificateTimestamp ops t ty p r0 =
      (LogSigner.GetSerializeError c1).map (fun e => (e, r0)) ∧
    s.SignTreeHead ops ts sz rh r1 =
      (LogSigner.GetSerializeError c2).map (fun e => (e, r1)) ∧
    s.SignCertificateTimestampSCT ops entry sct =
      (LogSigner.GetSerializeError c3).map (fun e => (e, sct)) ∧
    s.SignTreeHeadSTH ops sth =
      (LogSigner.GetSerializeError c4).map (fun e => (e, sth)) ∧
    (∀ c : SerializeResult, c ≠ SerializeResult.OK →
      LogSigner.GetSerializeError c = some SignResult.INVALID_ENTRY_TYPE ∨
      LogSigner.GetSerializeError c = some SignResult.EMPTY_CERTIFICATE ∨
      LogSigner.GetSerializeError c = some SignResult.CERTIFICATE_TOO_LONG ∨
      LogSigner.GetSerializeError c = some SignResult.INVALID_HASH_LENGTH) ∧
    (∀ a b : SerializeResult,
      LogSigner.GetSerializeError a = LogSigner.GetSerializeError b → a = b) ∧
    LogSigner.SignCertificateTimestamp { s with rawSign := raws' } ops t ty p r0 =
      s.SignCertificateTimestamp ops t ty p r0 ∧
    LogSigner.SignTreeHead { s with rawSign := raws' } ops ts sz rh r1 =
      s.SignTreeHead ops ts sz rh r1 ∧
    LogSigner.SignCertificateTimestampSCT { s with rawSign := raws' } ops entry sct =
      s.SignCertificateTimestampSCT ops entry sct ∧
    LogSigner.SignTreeHeadSTH { s with rawSign := raws' } ops sth =
      s.SignTreeHeadSTH ops sth := by
  refine ⟨?_, ?_, ?_, ?_, ?_, ?_, ?_, ?_, ?_, ?_⟩
  · simp [LogSigner.SignCertificateTimestamp, h1, hne1]
  · simp [LogSigner.SignTreeHead, h2, hne2]
  · simp [LogSigner.SignCertificateTimestampSCT, hts, h3, hne3]
  · simp [LogSigner.SignTreeHeadSTH, h4, hne4]
  · intro c hc
    cases c <;> first | exact absurd rfl hc | decide
  · intro a b h
    revert h
    cases a <;> cases b <;> decide
  · simp [LogSigner.SignCertificateTimestamp, h1, hne1]
  · simp [LogSigner.SignTreeHead, h2, hne2]
  · simp [LogSigner.SignCertificateTimestampSCT, hts, h3, hne3]
  · simp [LogSigner.SignTreeHeadSTH, h4, hne4]

theorem sign_encoder_failure_mapping_witness :
    signerEC.SignCertificateTimestamp opsFail 1 LogEntryType.X509_ENTRY [2] [9] =
      some (SignResult.EMPTY_CERTIFICATE, [9]) :=
  (sign_encoder_failure_mapping signerEC (fun _ => []) opsFail
      1 LogEntryType.X509_ENTRY [2] [9] 3 4 [5] [6]
      { type := LogEntryType.X509_ENTRY, leaf_certificate := [7] }
      { timestamp := some 5, signature := sigRecEC }
      { timestamp := some 5, tree_size := some 1, root_hash := some [8],
        signature := sigRecEC }
      SerializeResult.EMPTY_CERTIFICATE SerializeResult.INVALID_HASH_LENGTH
      SerializeResult.EMPTY_CERTIFICATE SerializeResult.INVALID_HASH_LENGTH
      rfl rfl (by decide) rfl (by decide) rfl (by decide) rfl (by decide)).1

/-- C9: for every scalar-input signing call in which the Signature Input
Encoder fails, the caller-supplied output string is left unmodified: any
returned pair carries the output parameter's prior contents. -/
theorem sign_encoder_failure_output_untouched (s : LogSigner) (ops : SerializerOps)
    (t : Nat) (ty : LogEntryType) (p : Bytes) (r0 : Bytes) (c1 : SerializeResult)
    (ts sz : Nat) (rh : Bytes) (r1 : Bytes) (c2 : SerializeResult)
    (h1 : (ops.serializeSCTSignatureInput t ty p).1 = c1)
    (hne1 : c1 ≠ SerializeResult.OK)
    (h2 : (ops.serializeSTHForSigning ts sz rh).1 = c2)
    (hne2 : c2 ≠ SerializeResult.OK) :
    (∀ e out, s.SignCertificateTimestamp ops t ty p r0 = some (e, out) → out = r0) ∧
    (∀ e out, s.SignTreeHead ops ts sz rh r1 = some (e, out) → out = r1) := by
  refine ⟨?_, ?_⟩
  · intro e out h
    simp [LogSigner.SignCertificateTimestamp, h1, hne1, Option.map_eq_some'] at h
    obtain ⟨a, ha, hae, hout⟩ := h
    exact hout.symm
  · intro e out h
    simp [LogSigner.SignTreeHead, h2, hne2, Option.map_eq_some'] at h
    obtain ⟨a, ha, hae, hout⟩ := h
    exact hout.symm

theorem sign_encoder_failure_output_untouched_witness : ([9] : Bytes) = [9] :=
  (sign_encoder_failure_output_untouched signerEC opsFail
      1 LogEntryType.X509_ENTRY [2] [9] SerializeResult.EMPTY_CERTIFICATE
      3 4 [5] [6] SerializeResult.INVALID_HASH_LENGTH
      rfl (by decide) rfl (by decide)).1
    SignResult.EMPTY_CERTIFICATE [9] rfl

/-- The signer's error translation hits `LOG(FATAL)` exactly on `OK`. -/
theorem GetSerializeError_eq_none_iff (c : SerializeResult) :
    LogSigner.GetSerializeError c = none ↔ c = SerializeResult.OK := by
  cases c <;> simp [LogSigner.GetSerializeError]

/-- The signer's error translation never yields the success result. -/
theorem GetSerializeError_ne_some_ok (c : SerializeResult) :
    LogSigner.GetSerializeError c ≠ some SignResult.OK := by
  cases c <;> simp [LogSigner.GetSerializeError]

/-- C7: the timestamp-proof signing operation aborts (dies on its `CHECK`)
exactly when the proof object's timestamp field was never set; whenever the
timestamp is set, the abort branch is unreachable and the call returns. -/
theorem sign_sct_timestamp_precondition (s : LogSigner) (ops : SerializerOps)
    (entry : LogEntry) (sct : SignedCertificateTimestamp) :
    (sct.timestamp = none → s.SignCertificateTimestampSCT ops entry sct = none) ∧
    (sct.timestamp ≠ none → s.SignCertificateTimestampSCT ops entry sct ≠ none) := by
  refine ⟨?_, ?_⟩
  · intro h
    simp [LogSigner.SignCertificateTimestampSCT,
          SignedCertificateTimestamp.has_timestamp, h]
  · intro h
    have hts : sct.has_timestamp = true := by
      simp [SignedCertificateTimestamp.has_timestamp, Option.isSome_iff_ne_none, h]
    by_cases hc : (ops.serializeSCTSignatureInputEntry sct.timestampVal entry).1 =
        SerializeResult.OK <;>
      simp [LogSigner.SignCertificateTimestampSCT, hts, hc, Option.map_eq_none',
            GetSerializeError_eq_none_iff]

theorem sign_sct_timestamp_precondition_witness :
    signerEC.SignCertificateTimestampSCT opsRT
        { type := LogEntryType.X509_ENTRY, leaf_certificate := [7] }
        { timestamp := none, signature := sigRecEC } = none ∧
    signerEC.SignCertificateTimestampSCT opsRT
        { type := LogEntryType.X509_ENTRY, leaf_certificate := [7] }
        { timestamp := some 3, signature := sigRecEC } ≠ none :=
  ⟨(sign_sct_timestamp_precondition signerEC opsRT
      { type := LogEntryType.X509_ENTRY, leaf_certificate := [7] }
      { timestamp := none, signature := sigRecEC }).1 rfl,
   (sign_sct_timestamp_precondition signerEC opsRT
      { type := LogEntryType.X509_ENTRY, leaf_certificate := [7] }
      { timestamp := some 3, signature := sigRecEC }).2 (by simp)⟩

/-- C8: a signer constructed from an elliptic-curve key has its algorithm pair
fixed to (SHA256, ECDSA), and every signature record produced by a successful
signing operation carries exactly that pair (the embedding has no mutation
path for the pair after construction). -/
theorem signer_algorithm_pair_fixed (raws : Bytes → Bytes) (s : LogSigner)
    (hs : mkLogSigner KeyType.EC raws = some s) :
    s.hash_algo = HashAlgorithm.SHA256 ∧ s.sig_algo = SigAlgorithm.ECDSA ∧
    (∀ data, (s.Sign data).hash_algorithm = HashAlgorithm.SHA256 ∧
      (s.Sign data).sig_algorithm = SigAlgorithm.ECDSA) ∧
    (∀ ops entry sct sct',
      LogSigner.SignCertificateTimestampSCT s ops entry sct =
          some (SignResult.OK, sct') →
      sct'.signature.hash_algorithm = HashAlgorithm.SHA256 ∧
      sct'.signature.sig_algorithm = SigAlgorithm.ECDSA) ∧
    (∀ ops sth sth',
      LogSigner.SignTreeHeadSTH s ops sth = some (SignResult.OK, sth') →
      sth'.signature.hash_algorithm = HashAlgorithm.SHA256 ∧
      sth'.signature.sig_algorithm = SigAlgorithm.ECDSA) := by
  simp only [mkLogSigner] at hs
  rw [Option.some_inj] at hs
  subst hs
  refine ⟨rfl, rfl, fun data => ⟨rfl, rfl⟩, ?_, ?_⟩
  · intro ops entry sct sct' h
    unfold LogSigner.SignCertificateTimestampSCT at h
    split at h
    · exact absurd h (by simp)
    · simp only [ne_eq] at h
      split at h
      · exfalso
        simp only [Option.map_eq_some', Prod.mk.injEq] at h
        obtain ⟨a, ha, hae, -⟩ := h
        exact absurd (hae ▸ ha) (GetSerializeError_ne_some_ok _)
      · simp only [Option.some_inj, Prod.mk.injEq] at h
        obtain ⟨-, h2⟩ := h
        rw [← h2]
        exact ⟨rfl, rfl⟩
  · intro ops sth sth' h
    unfold LogSigner.SignTreeHeadSTH at h
    simp only [ne_eq] at h
    split at h
    · exfalso
      simp only [Option.map_eq_some', Prod.mk.injEq] at h
      obtain ⟨a, ha, hae, -⟩ := h
      exact absurd (hae ▸ ha) (GetSerializeError_ne_some_ok _)
    · simp only [Option.some_inj, Prod.mk.injEq] at h
      obtain ⟨-, h2⟩ := h
      rw [← h2]
      exact ⟨rfl, rfl⟩

theorem signer_algorithm_pair_fixed_witness :
    signerEC.hash_algo = HashAlgorithm.SHA256 :=
  (signer_algorithm_pair_fixed id signerEC rfl).1

/-- Tree head proof object whose timestamp field was never set but whose other
fields are valid. -/
def sthNoTimestamp : SignedTreeHead :=
  { timestamp := none, tree_size := some 1, root_hash := some [8],
    signature := sigRecEC }

/-- C6 counterexample: signing a `SignedTreeHead` whose timestamp was never
set does NOT abort — unlike the SCT overload, `LogSigner::SignTreeHead`
performs no `CHECK` on the timestamp, and the call completes, producing a
signature (over the protobuf default timestamp 0). -/
theorem sign_sth_missing_timestamp_counterexample :
    sthNoTimestamp.timestamp = none ∧
    signerEC.SignTreeHeadSTH opsRT sthNoTimestamp =
      some (SignResult.OK,
        { sthNoTimestamp with
            signature :=
              { hash_algorithm := HashAlgorithm.SHA256,
                sig_algorithm := SigAlgorithm.ECDSA, signature := [0, 1, 8] } }) :=
  ⟨rfl, rfl⟩

/-- C6 (amended): calling the tree-head-proof signing operation on a proof
object whose timestamp field was never set does not abort; the call returns a
result (success or a recoverable encoder error), and the input is canonicalized
with the timestamp read as the protobuf default value 0. -/
theorem sign_sth_missing_timestamp_no_abort (s : LogSigner) (ops : SerializerOps)
    (sth : SignedTreeHead) (hts : sth.timestamp = none) :
    LogSigner.SignTreeHeadSTH s ops sth ≠ none ∧
    SerializerOps.serializeSTHForSigningSTH ops sth =
      ops.serializeSTHForSigning 0 sth.treeSizeVal sth.rootHashVal := by
  refine ⟨?_, ?_⟩
  · by_cases hc : (ops.serializeSTHForSigningSTH sth).1 = SerializeResult.OK <;>
      simp [LogSigner.SignTreeHeadSTH, hc, Option.map_eq_none',
            GetSerializeError_eq_none_iff]
  · simp [SerializerOps.serializeSTHForSigningSTH, SignedTreeHead.timestampVal, hts]

theorem sign_sth_missing_timestamp_no_abort_witness :
    signerEC.SignTreeHeadSTH opsFail sthNoTimestamp ≠ none :=
  (sign_sth_missing_timestamp_no_abort signerEC opsFail sthNoTimestamp rfl).1

/-- C2: for every (timestamp, entry type, payload) the Signature Input Encoder
accepts, verifying with the scalar SCT verification the serialized signature
produced by the scalar SCT signing on the same three inputs returns OK, when
signer and verifier are built from matching EC keys (the raw primitive
validates its own signatures) and the signature-record serializer and
deserializer invert each other. -/
theorem sign_verify_timestamp_roundtrip
    (raws : Bytes → Bytes) (rawv : Bytes → Bytes → Bool)
    (s : LogSigner) (v : LogSigVerifier) (ops : SerializerOps)
    (hsgn : mkLogSigner KeyType.EC raws = some s)
    (hvrf : mkLogSigVerifier KeyType.EC rawv = some v)
    (hraw : ∀ d, rawv d (raws d) = true)
    (hinv : ∀ ds b, ops.serializeDigitallySigned ds = (SerializeResult.OK, b) →
      ops.deserializeDigitallySigned b = (DeserializeResult.OK, ds))
    (t : Nat) (ty : LogEntryType) (p : Bytes) (input r0 out : Bytes) (e : SignResult)
    (henc : ops.serializeSCTSignatureInput t ty p = (SerializeResult.OK, input))
    (hsign : s.SignCertificateTimestamp ops t ty p r0 = some (e, out)) :
    v.VerifySCTSignature ops t ty p out = some VerifyResult.OK := by
  simp only [mkLogSigner] at hsgn
  rw [Option.some_inj] at hsgn
  subst hsgn
  simp only [mkLogSigVerifier] at hvrf
  rw [Option.some_inj] at hvrf
  subst hvrf
  unfold LogSigner.SignCertificateTimestamp at hsign
  rw [henc] at hsign
  simp only [ne_eq] at hsign
  rw [if_neg (by simp)] at hsign
  split at hsign
  · rename_i hser
    simp only [Option.some_inj, Prod.mk.injEq] at hsign
    obtain ⟨-, hout⟩ := hsign
    have hpair :
        ops.serializeDigitallySigned
          (LogSigner.Sign
            { hash_algo := HashAlgorithm.SHA256, sig_algo := SigAlgorithm.ECDSA,
              rawSign := raws }
            input) =
          (SerializeResult.OK, out) := by
      rw [Prod.ext_iff]
      exact ⟨hser, hout⟩
    have hdes := hinv _ _ hpair
    unfold LogSigVerifier.VerifySCTSignature
    rw [hdes, henc]
    simp [LogSigVerifier.Verify, LogSigner.Sign, hraw input]
  · exact absurd hsign (by simp)

theorem sign_verify_timestamp_roundtrip_witness :
    verifierAcceptAll.VerifySCTSignature opsRT 1 LogEntryType.X509_ENTRY [7]
      [4, 3, 1, 7] = some VerifyResult.OK :=
  sign_verify_timestamp_roundtrip id (fun _ _ => true) signerEC verifierAcceptAll
    opsRT rfl rfl (fun _ => rfl)
    (fun ds b h => by
      obtain rfl : encodeDS ds = b := congrArg Prod.snd h
      simp [opsRT, decodeDS_encodeDS])
    1 LogEntryType.X509_ENTRY [7] [1, 7] [] [4, 3, 1, 7] SignResult.OK rfl rfl
